import Mathlib

/-
Verification of the dali2hass bridge (dali.py, hass.py, drivers/daliserver.py)
against its natural-language specification: a shallow embedding of the
device/group state machines, the wire driver's status handling and one
iteration of the cooperative scheduler loop, with theorems settling the
specified properties.  Timestamps are modelled as integers.
-/

namespace Dali2Hass

/-- Result of a numeric DALI query as seen through python-dali response
objects: a numeric value, the value "MASK", or any other string (a missing
response or framing error, written garbled here). -/
inductive QueryResult where
  | num (n : Nat)
  | mask
  | garbled
deriving DecidableEq, Repr

/-- Bus primitive chosen by Light.command. -/
inductive Primitive where
  | DAPC (level : Nat)
  | Off
  | RecallMin
  | RecallMax
deriving DecidableEq, Repr

/-- State of one Light (dali.py, class Light), restricted to the fields the
verified properties concern.  The numeric fields are meaningful once the
code has assigned them (the Python code initialises them to None and only
reads them after a scan). -/
structure Light where
  scanned : Bool
  is_light : Bool
  supports_brightness : Bool
  physical_minimum : Nat
  min_level : Nat
  max_level : Nat
  current_level : Nat
  previous_active_level : Nat
  lamp_failure : Bool
  scenes : List (Nat × Nat)
  last_update : Int
deriving DecidableEq, Repr

/-- Light.deadline (dali.py lines 262-268): immediate when unscanned,
last_update + poll_interval for a light, no deadline otherwise. -/
def Light.deadline (l : Light) (poll_interval : Int) : Option Int :=
  if l.scanned = false then some 0
  else if l.is_light then some (l.last_update + poll_interval)
  else none

/-- Effect of Bridge.rescan_cmd on one light (dali.py line 155). -/
def Light.rescan (l : Light) : Light := { l with scanned := false }

/-- JSON set-state payload for a light (Home Assistant mqtt json schema):
an optional state string, an optional integer brightness and an optional
numeric transition time. -/
structure StatePayload where
  state : Option String
  brightness : Option Nat
  transition : Option Int
deriving DecidableEq, Repr

/-- Python truthiness of the optional transition value in
`if transition:`: an absent value and the number 0 are falsy. -/
def transitionTruthy : Option Int → Bool
  | none => false
  | some t => t != 0

/-- Light.command (dali.py lines 417-454).  Returns the updated light and
the bus primitive chosen (in dry-run mode the primitive is only logged,
with the same local state update). -/
def Light.command (l : Light) (sd : StatePayload) (now : Int) :
    Light × Primitive :=
  let new_state := sd.state.getD "OFF"
  let target_level : Nat :=
    if new_state = "OFF" then 0
    else sd.brightness.getD l.previous_active_level
  let l1 :=
    if target_level = 0 ∧ 0 < l.current_level then
      { l with previous_active_level := l.current_level }
    else l
  let lp : Light × Primitive :=
    if transitionTruthy sd.transition then
      ({ l1 with current_level := target_level }, Primitive.DAPC target_level)
    else if target_level = 0 then
      ({ l1 with current_level := 0 }, Primitive.Off)
    else if target_level ≤ l1.min_level then
      ({ l1 with current_level := l1.min_level }, Primitive.RecallMin)
    else if l1.max_level ≤ target_level then
      ({ l1 with current_level := l1.max_level }, Primitive.RecallMax)
    else
      ({ l1 with current_level := target_level }, Primitive.DAPC target_level)
  ({ lp.1 with last_update := now }, lp.2)

/-- Light.background (dali.py lines 270-293) in the case scanned = true;
when scanned is false the code performs Light.scan instead (modelled by
Light.scan below).  Inputs are the QueryActualLevel response and the
QueryLampFailure response the bus would give if asked.  Returns the update
and whether update_state was reached (a state publication). -/
def Light.backgroundPoll (l : Light) (actual : QueryResult) (lampResp : Bool)
    (now : Int) : Light × Bool :=
  if l.is_light = false then (l, false)
  else
    match actual with
    | QueryResult.mask =>
        ({ l with lamp_failure := lampResp, last_update := now }, true)
    | QueryResult.garbled => (l, false)
    | QueryResult.num n =>
        let l1 :=
          if n = 0 ∧ l.current_level ≠ 0 then
            { l with previous_active_level := l.current_level }
          else l
        ({ l1 with current_level := n, last_update := now }, true)

/-- Light.notify_group_action (dali.py lines 467-475). -/
def Light.notify_group_action (l : Light) (new_level : Nat) (now : Int) :
    Light :=
  let l1 :=
    if new_level = 0 ∧ l.current_level ≠ 0 then
      { l with previous_active_level := l.current_level }
    else l
  { l1 with current_level := new_level, last_update := now }

/-- Light.notify_scene (dali.py lines 456-465). -/
def Light.notify_scene (l : Light) (scene : Nat) (now : Int) : Light :=
  match l.scenes.lookup scene with
  | none => l
  | some new_level =>
      let l1 :=
        if new_level = 0 ∧ l.current_level ≠ 0 then
          { l with previous_active_level := l.current_level }
        else l
      { l1 with current_level := new_level, last_update := now }

/-- Responses the bus gives during Light.scan.  deviceTypes is none when
QueryDeviceTypes raises DALISequenceError.  actual_level is some n for a
numeric reading and none for MASK (a garbled actual-level reading during a
scan is outside the model: the Python code would fail with a type error
further on).  scene_levels lists the sixteen QuerySceneLevel responses in
scene order. -/
structure ScanBus where
  present : Bool
  deviceTypes : Option (List Nat)
  switched_maintained : Bool
  physical_minimum : Nat
  min_level : Nat
  max_level : Nat
  actual_level : Option Nat
  lamp_failure : Bool
  scene_levels : List QueryResult
  groups : List Nat
deriving DecidableEq, Repr

/-- Scene-level query loop of Light.scan (dali.py lines 342-352), started
at scene index i.  Returns the scenes table built, the scene numbers
announced through Bridge.add_scene, and whether the loop completed without
a garbled response. -/
def scanScenesFrom : Nat → List QueryResult → List (Nat × Nat) × List Nat × Bool
  | _, [] => ([], [], true)
  | i, QueryResult.mask :: rest => scanScenesFrom (i + 1) rest
  | _, QueryResult.garbled :: _ => ([], [], false)
  | i, QueryResult.num n :: rest =>
      let r := scanScenesFrom (i + 1) rest
      ((i, n) :: r.1, i :: r.2.1, r.2.2)

/-- Outcome of Light.scan: the new light state, whether the
entity-materialisation block at the end of scan was reached, the scenes
announced via Bridge.add_scene and the groups joined via
Bridge.add_to_group. -/
structure ScanResult where
  light : Light
  entitiesCreated : Bool
  scenesAdded : List Nat
  groupsJoined : List Nat
deriving DecidableEq, Repr

/-- Light.scan (dali.py lines 295-396).  cfg is the per-device brightness
override from the configuration; the bridge-level add_emergency_unit side
effect is not tracked here (no verified property concerns it). -/
def Light.scan (l : Light) (cfg : Option Bool) (groupsSupported : Bool)
    (bus : ScanBus) : ScanResult :=
  let l0 := { l with scanned := true, supports_brightness := true }
  if bus.present = false then ⟨l0, false, [], []⟩
  else
    match bus.deviceTypes with
    | none => ⟨l0, false, [], []⟩
    | some dts =>
      if 1 ∈ dts ∧ bus.switched_maintained = false then ⟨l0, false, [], []⟩
      else
        let sb1 := if 7 ∈ dts then false else l0.supports_brightness
        let sb2 := if bus.physical_minimum = 254 then false else sb1
        let sb := match cfg with
          | some b => b
          | none => sb2
        let clf : Nat × Bool := match bus.actual_level with
          | none => (0, bus.lamp_failure)
          | some n => (n, l0.lamp_failure)
        let pal := if clf.1 ≠ 0 then clf.1 else bus.max_level
        let sres := scanScenesFrom 0 bus.scene_levels
        let l1 := { l0 with
          supports_brightness := sb,
          physical_minimum := bus.physical_minimum,
          min_level := bus.min_level,
          max_level := bus.max_level,
          current_level := clf.1,
          lamp_failure := clf.2,
          previous_active_level := pal,
          scenes := sres.1 }
        if sres.2.2 = false then ⟨l1, false, sres.2.1, []⟩
        else
          let joined := if groupsSupported then bus.groups else []
          ⟨{ l1 with is_light := true }, true, sres.2.1, joined⟩

/-- Group aggregate state (dali.py, class Group), with the initial values
from Group.__init__ (lines 205-208). -/
structure Group where
  members : List Light
  supports_brightness : Bool
  min_level : Nat
  max_level : Nat
deriving DecidableEq, Repr

/-- Group.__init__ aggregate fields (dali.py lines 205-208). -/
def Group.init : Group := ⟨[], false, 254, 1⟩

/-- Group.add_member (dali.py lines 223-229). -/
def Group.add_member (g : Group) (light : Light) : Group :=
  { members := light :: g.members
    supports_brightness :=
      if light.supports_brightness then true else g.supports_brightness
    min_level := min g.min_level light.min_level
    max_level := max g.max_level light.max_level }

/-- Backward frame kinds the wire driver constructs
(dali.frame.BackwardFrame and dali.frame.BackwardFrameError). -/
inductive Frame where
  | backward (v : Nat)
  | backwardError (v : Nat)
deriving DecidableEq, Repr

/-- The aspects of a python-dali Command that DaliServer._send consults:
the forward frame length, the sendtwice flag, the devicetype selector and
the optional response decoder. -/
structure WireCommand (R : Type) where
  frame_length : Nat
  sendtwice : Bool
  devicetype : Nat
  response : Option (Option Frame → R)

/-- One 4-byte reply from daliserver:
protocol version, status, return value, pad. -/
structure WireReply where
  ver : Nat
  status : Nat
  rval : Nat
  pad : Nat
deriving DecidableEq, Repr

/-- DaliServer._send (daliserver.py lines 69-98).  r1 is the gateway reply
to the first transmission and r2 the reply to the second transmission when
sendtwice is set; only the authoritative reply is interpreted.  Errors are
UnsupportedFrameTypeError (frame not 16 bits, raised before sending) and
CommunicationError (unknown status). -/
def sendOne {R : Type} (cmd : WireCommand R) (r1 r2 : WireReply) :
    Except String (Option R) :=
  if cmd.frame_length ≠ 16 then Except.error "UnsupportedFrameTypeError"
  else
    let result := if cmd.sendtwice then r2 else r1
    match cmd.response with
    | none => Except.ok none
    | some dec =>
      if result.status = 0 then Except.ok (some (dec none))
      else if result.status = 1 then
        Except.ok (some (dec (some (Frame.backward result.rval))))
      else if result.status = 255 then
        Except.ok (some (dec (some (Frame.backwardError 255))))
      else Except.error "CommunicationError"

/-- The (deadline, task) pairs built at hass.py line 272, with task
identity as its index in the task list, keeping only non-null deadlines;
k is the index of the first listed task. -/
def currentTasksFrom : Nat → List (Option Int) → List (Int × Nat)
  | _, [] => []
  | k, none :: rest => currentTasksFrom (k + 1) rest
  | k, some d :: rest => (d, k) :: currentTasksFrom (k + 1) rest

def currentTasks (ds : List (Option Int)) : List (Int × Nat) :=
  currentTasksFrom 0 ds

/-- One step of the fold computing the head of Python
sorted(current_tasks, key=deadline): keep the earlier pair on ties. -/
def minStep (acc : Option (Int × Nat)) (x : Int × Nat) : Option (Int × Nat) :=
  match acc with
  | none => some x
  | some a => if x.1 < a.1 then some x else some a

/-- Head of the deadline-sorted task list: the first pair attaining the
minimal deadline, none when no task has a deadline. -/
def firstMin (l : List (Int × Nat)) : Option (Int × Nat) :=
  l.foldl minStep none

/-- Wait timeout before the pending-message adjustment
(hass.py lines 276-279): time to the earliest deadline clamped to at
least 0, or the 60 second fallback. -/
def baseTimeout (ds : List (Option Int)) (now : Int) : Int :=
  match firstMin (currentTasks ds) with
  | some p => max (p.1 - now) 0
  | none => 60

/-- Input of one connected iteration of HomeAssistant.run: the tasks'
deadline() results, the debounced pending state messages as
(release time, message id) pairs, the clock at the top of the iteration
and the clock after the mqtt network wait. -/
structure IterInput where
  deadlines : List (Option Int)
  pending : List (Int × Nat)
  now : Int
  now2 : Int
deriving DecidableEq, Repr

/-- Observable outcome of one iteration: the timeout passed to the mqtt
loop, the pending message published (if any), whether the idle tasks were
run, and the task whose background entry point was invoked (if any). -/
structure IterOutput where
  timeout : Int
  published : Option Nat
  idleRan : Bool
  ranBackground : Option Nat
deriving DecidableEq, Repr

/-- One connected iteration of HomeAssistant.run (hass.py lines 270-295). -/
def runIteration (inp : IterInput) : IterOutput :=
  let base := baseTimeout inp.deadlines inp.now
  let pt : Option Nat × Int :=
    match inp.pending with
    | [] => (none, base)
    | (t, m) :: _ =>
        if inp.now ≥ t then (some m, base)
        else (none, min (t - inp.now) base)
  let timeout := pt.2
  let idleRan := decide (0 < timeout)
  let ranBackground :=
    match firstMin (currentTasks inp.deadlines) with
    | some p => if inp.now2 ≥ p.1 then some p.2 else none
    | none => none
  ⟨timeout, pt.1, idleRan, ranBackground⟩

/-- Stated from the specification text, for comparison with the code: the
wait timeout equals the time to the minimum deadline clamped to at least 0
(or 60 with no deadline), further shrunk to the time to the earliest
pending publication release whenever that is sooner. -/
def claimTimeout (inp : IterInput) : Int :=
  let base := baseTimeout inp.deadlines inp.now
  match inp.pending with
  | [] => base
  | (t, _) :: _ => if t - inp.now < base then t - inp.now else base

instance {ε α : Type} [DecidableEq ε] [DecidableEq α] : DecidableEq (Except ε α)
  | Except.ok a, Except.ok b => decidable_of_iff (a = b) (by simp)
  | Except.ok _, Except.error _ => isFalse (fun h => Except.noConfusion h)
  | Except.error _, Except.ok _ => isFalse (fun h => Except.noConfusion h)
  | Except.error a, Except.error b => decidable_of_iff (a = b) (by simp)

/-- Folding minStep from a some accumulator yields a pair drawn from the
accumulator or the list, no larger than either. -/
lemma firstMin_go (l : List (Int × Nat)) :
    ∀ a : Int × Nat, ∃ p, l.foldl minStep (some a) = some p ∧
      (p = a ∨ p ∈ l) ∧ p.1 ≤ a.1 ∧ ∀ q ∈ l, p.1 ≤ q.1 := by
  induction l with
  | nil =>
      intro a
      exact ⟨a, rfl, Or.inl rfl, le_refl _, by simp⟩
  | cons x xs ih =>
      intro a
      by_cases hx : x.1 < a.1
      · obtain ⟨p, hp, hmem, hle, hall⟩ := ih x
        refine ⟨p, ?_, ?_, ?_, ?_⟩
        · simpa [minStep, hx] using hp
        · rcases hmem with h | h
          · exact Or.inr (h ▸ List.mem_cons_self x xs)
          · exact Or.inr (List.mem_cons_of_mem x h)
        · exact le_trans hle (le_of_lt hx)
        · intro q hq
          rcases List.mem_cons.mp hq with h | h
          · exact h ▸ hle
          · exact hall q h
      · obtain ⟨p, hp, hmem, hle, hall⟩ := ih a
        refine ⟨p, ?_, ?_, hle, ?_⟩
        · simpa [minStep, hx] using hp
        · rcases hmem with h | h
          · exact Or.inl h
          · exact Or.inr (List.mem_cons_of_mem x h)
        · intro q hq
          rcases List.mem_cons.mp hq with h | h
          · exact h ▸ le_trans hle (not_lt.mp hx)
          · exact hall q h

/-- firstMin returns an element of the list attaining the minimal
deadline (the earliest such element under ties). -/
lemma firstMin_spec {l : List (Int × Nat)} {p : Int × Nat}
    (h : firstMin l = some p) : p ∈ l ∧ ∀ q ∈ l, p.1 ≤ q.1 := by
  cases l with
  | nil => exact absurd h (by simp [firstMin])
  | cons x xs =>
      obtain ⟨p', hp', hmem, hle, hall⟩ := firstMin_go xs x
      have hfx : firstMin (x :: xs) = some p' := by
        simpa [firstMin, minStep] using hp'
      have hpp : p' = p := by
        have := hfx.symm.trans h
        exact Option.some.inj this
      subst hpp
      constructor
      · rcases hmem with h' | h'
        · exact h' ▸ List.mem_cons_self x xs
        · exact List.mem_cons_of_mem x h'
      · intro q hq
        rcases List.mem_cons.mp hq with h' | h'
        · exact h' ▸ hle
        · exact hall q h'

lemma firstMin_eq_none {l : List (Int × Nat)} (h : firstMin l = none) :
    l = [] := by
  cases l with
  | nil => rfl
  | cons x xs =>
      obtain ⟨p', hp', -, -, -⟩ := firstMin_go xs x
      have : firstMin (x :: xs) = some p' := by
        simpa [firstMin, minStep] using hp'
      rw [h] at this
      exact Option.noConfusion this

/-- Membership in the filtered task list corresponds to a non-null entry
of the deadline list. -/
lemma currentTasksFrom_mem (ds : List (Option Int)) :
    ∀ (k : Nat) (d : Int) (i : Nat),
      ((d, i) ∈ currentTasksFrom k ds ↔
        ∃ j, i = k + j ∧ ds[j]? = some (some d)) := by
  induction ds with
  | nil =>
      intro k d i
      simp [currentTasksFrom]
  | cons o rest ih =>
      intro k d i
      cases o with
      | none =>
          simp only [currentTasksFrom]
          rw [ih (k + 1) d i]
          constructor
          · rintro ⟨j, hj, hget⟩
            exact ⟨j + 1, by omega, by simpa using hget⟩
          · rintro ⟨j, hj, hget⟩
            cases j with
            | zero => simp at hget
            | succ j' =>
                exact ⟨j', by omega, by simpa using hget⟩
      | some e =>
          simp only [currentTasksFrom, List.mem_cons]
          rw [ih (k + 1) d i]
          constructor
          · rintro (heq | ⟨j, hj, hget⟩)
            · have h1 : d = e := congrArg Prod.fst heq
              have h2 : i = k := congrArg Prod.snd heq
              exact ⟨0, by omega, by simp [h1]⟩
            · exact ⟨j + 1, by omega, by simpa using hget⟩
          · rintro ⟨j, hj, hget⟩
            cases j with
            | zero =>
                left
                simp at hget
                simp [hget, hj]
            | succ j' =>
                right
                exact ⟨j', by omega, by simpa using hget⟩

/-- A garbled scene-level response anywhere in the loop input makes the
loop abort. -/
lemma scanScenesFrom_garbled (rs : List QueryResult) :
    ∀ i, QueryResult.garbled ∈ rs → (scanScenesFrom i rs).2.2 = false := by
  induction rs with
  | nil => intro i h; simp at h
  | cons r rest ih =>
      intro i h
      cases r with
      | mask =>
          have : QueryResult.garbled ∈ rest := by
            rcases List.mem_cons.mp h with h' | h'
            · exact absurd h' (by simp)
            · exact h'
          simpa [scanScenesFrom] using ih (i + 1) this
      | garbled => simp [scanScenesFrom]
      | num n =>
          have : QueryResult.garbled ∈ rest := by
            rcases List.mem_cons.mp h with h' | h'
            · exact absurd h' (by simp)
            · exact h'
          simpa [scanScenesFrom] using ih (i + 1) this

/-- Without a garbled response the scene loop completes. -/
lemma scanScenesFrom_ok (rs : List QueryResult) :
    ∀ i, QueryResult.garbled ∉ rs → (scanScenesFrom i rs).2.2 = true := by
  induction rs with
  | nil => intro i _; rfl
  | cons r rest ih =>
      intro i h
      have hrest : QueryResult.garbled ∉ rest := fun hr =>
        h (List.mem_cons_of_mem r hr)
      cases r with
      | mask => simpa [scanScenesFrom] using ih (i + 1) hrest
      | garbled => exact absurd (List.mem_cons_self _ _) h
      | num n => simpa [scanScenesFrom] using ih (i + 1) hrest

/-- Every scene recorded by the loop stems from a numeric response at the
corresponding index. -/
lemma scanScenesFrom_lookup (rs : List QueryResult) :
    ∀ i j lv, (scanScenesFrom i rs).1.lookup j = some lv →
      ∃ k, j = i + k ∧ rs[k]? = some (QueryResult.num lv) := by
  induction rs with
  | nil => intro i j lv h; simp [scanScenesFrom, List.lookup] at h
  | cons r rest ih =>
      intro i j lv h
      cases r with
      | mask =>
          simp only [scanScenesFrom] at h
          obtain ⟨k, hk, hget⟩ := ih (i + 1) j lv h
          exact ⟨k + 1, by omega, by simpa using hget⟩
      | garbled => simp [scanScenesFrom, List.lookup] at h
      | num n =>
          simp only [scanScenesFrom] at h
          by_cases hji : j = i
          · have : lv = n := by
              simp [List.lookup, hji] at h
              exact h.symm
            exact ⟨0, by omega, by simp [this]⟩
          · have hb : (j == i) = false := beq_eq_false_iff_ne.mpr hji
            have h' : (scanScenesFrom (i + 1) rest).1.lookup j = some lv := by
              simpa [List.lookup, hb] using h
            obtain ⟨k, hk, hget⟩ := ih (i + 1) j lv h'
            exact ⟨k + 1, by omega, by simpa using hget⟩

lemma group_fold_members (ls : List Light) :
    ∀ g : Group, (ls.foldl Group.add_member g).members =
      ls.reverse ++ g.members := by
  induction ls with
  | nil => intro g; simp
  | cons x xs ih =>
      intro g
      simp [List.foldl_cons, ih, Group.add_member]

lemma group_fold_min (ls : List Light) :
    ∀ g : Group, (ls.foldl Group.add_member g).min_level =
      ls.foldl (fun a l => min a l.min_level) g.min_level := by
  induction ls with
  | nil => intro g; rfl
  | cons x xs ih => intro g; simp [List.foldl_cons, ih, Group.add_member]

lemma group_fold_max (ls : List Light) :
    ∀ g : Group, (ls.foldl Group.add_member g).max_level =
      ls.foldl (fun a l => max a l.max_level) g.max_level := by
  induction ls with
  | nil => intro g; rfl
  | cons x xs ih => intro g; simp [List.foldl_cons, ih, Group.add_member]

lemma group_fold_sb (ls : List Light) :
    ∀ g : Group, (ls.foldl Group.add_member g).supports_brightness =
      (g.supports_brightness || ls.any fun l => l.supports_brightness) := by
  induction ls with
  | nil => intro g; simp
  | cons x xs ih =>
      intro g
      simp only [List.foldl_cons, ih, Group.add_member, List.any_cons]
      cases hx : x.supports_brightness <;>
        cases hg : g.supports_brightness <;> simp

/-- A foldl of min over naturals stays below the seed and every element,
and is attained by the seed or an element. -/
lemma foldl_min_spec (ns : List Nat) :
    ∀ init : Nat, ns.foldl min init ≤ init ∧
      (∀ n ∈ ns, ns.foldl min init ≤ n) ∧
      (ns.foldl min init = init ∨ ns.foldl min init ∈ ns) := by
  induction ns with
  | nil => intro init; exact ⟨le_refl _, by simp, Or.inl rfl⟩
  | cons x xs ih =>
      intro init
      obtain ⟨h1, h2, h3⟩ := ih (min init x)
      simp only [List.foldl_cons]
      refine ⟨le_trans h1 (min_le_left _ _), ?_, ?_⟩
      · intro n hn
        rcases List.mem_cons.mp hn with h' | h'
        · subst h'
          exact le_trans h1 (min_le_right _ _)
        · exact h2 n h'
      · rcases h3 with h' | h'
        · rcases min_choice init x with hm | hm
          · exact Or.inl (h'.trans hm)
          · refine Or.inr ?_
            rw [h', hm]
            exact List.mem_cons_self x xs
        · exact Or.inr (List.mem_cons_of_mem x h')

/-- A foldl of max over naturals stays above the seed and every element,
and is attained by the seed or an element. -/
lemma foldl_max_spec (ns : List Nat) :
    ∀ init : Nat, init ≤ ns.foldl max init ∧
      (∀ n ∈ ns, n ≤ ns.foldl max init) ∧
      (ns.foldl max init = init ∨ ns.foldl max init ∈ ns) := by
  induction ns with
  | nil => intro init; exact ⟨le_refl _, by simp, Or.inl rfl⟩
  | cons x xs ih =>
      intro init
      obtain ⟨h1, h2, h3⟩ := ih (max init x)
      simp only [List.foldl_cons]
      refine ⟨le_trans (le_max_left _ _) h1, ?_, ?_⟩
      · intro n hn
        rcases List.mem_cons.mp hn with h' | h'
        · subst h'
          exact le_trans (le_max_right _ _) h1
        · exact h2 n h'
      · rcases h3 with h' | h'
        · rcases max_choice init x with hm | hm
          · exact Or.inl (h'.trans hm)
          · refine Or.inr ?_
            rw [h', hm]
            exact List.mem_cons_self x xs
        · exact Or.inr (List.mem_cons_of_mem x h')

/-- Stated from the specification text: the target level derived from a
set-state payload — 0 for OFF, else the explicit brightness, else
previous_active_level.  This is the same expression the code computes. -/
def specTarget (l : Light) (sd : StatePayload) : Nat :=
  if sd.state.getD "OFF" = "OFF" then 0
  else sd.brightness.getD l.previous_active_level

section Examples

/-- A scanned, fully populated light used as a concrete test state. -/
def exLight : Light :=
  { scanned := true, is_light := true, supports_brightness := true
    physical_minimum := 1, min_level := 1, max_level := 254
    current_level := 100, previous_active_level := 50
    lamp_failure := false, scenes := [], last_update := 0 }

/-- A light that has never been scanned. -/
def exUnscanned : Light :=
  { scanned := false, is_light := false, supports_brightness := true
    physical_minimum := 0, min_level := 0, max_level := 0
    current_level := 0, previous_active_level := 0
    lamp_failure := false, scenes := [], last_update := 0 }

/-- exLight with previous_active_level 0, reachable when the initial scan
read max level 0 and level 0 and a later poll read a nonzero level. -/
def exPalZero : Light := { exLight with previous_active_level := 0 }

/-- Payload turning a light on without explicit brightness. -/
def sdOnNoB : StatePayload := ⟨some "ON", none, none⟩

/-- Payload turning a light off with an explicit zero transition time. -/
def sdOffT0 : StatePayload := ⟨some "OFF", none, some 0⟩

/-- Bus answering a rescan with actual level 0 and no scene levels. -/
def busRescanZero : ScanBus :=
  { present := true, deviceTypes := some [], switched_maintained := true
    physical_minimum := 1, min_level := 1, max_level := 254
    actual_level := some 0, lamp_failure := false
    scene_levels := List.replicate 16 QueryResult.mask, groups := [] }

/-- Bus whose very first scene-level response is garbled. -/
def busGarbledScene : ScanBus :=
  { present := true, deviceTypes := some [], switched_maintained := true
    physical_minimum := 10, min_level := 20, max_level := 200
    actual_level := some 150, lamp_failure := false
    scene_levels := QueryResult.garbled :: List.replicate 15 QueryResult.mask
    groups := [] }

/-- Bus reporting an actual level below the reported minimum level. -/
def busLowActual : ScanBus :=
  { present := true, deviceTypes := some [], switched_maintained := true
    physical_minimum := 1, min_level := 50, max_level := 200
    actual_level := some 10, lamp_failure := false
    scene_levels := List.replicate 16 QueryResult.mask, groups := [] }

/-- A response decoder that records whether the backward frame was a
plain frame or an error frame, together with its value — the distinction
python-dali numeric responses make (an error frame decodes to the string
"framing error", not to its value). -/
def distinguishDec : Option Frame → Bool × Nat
  | some (Frame.backward v) => (true, v)
  | some (Frame.backwardError v) => (false, v)
  | none => (false, 0)

def cmdDist : WireCommand (Bool × Nat) := ⟨16, false, 0, some distinguishDec⟩

def reply255 : WireReply := ⟨2, 255, 0, 0⟩

def reply1v255 : WireReply := ⟨2, 1, 255, 0⟩

/-- A scanned light whose reported max level is 0 (a raw bus byte the code
never validates). -/
def tLightMax0 : Light := { exUnscanned with scanned := true, min_level := 1 }

/-- Iteration input with one task due in 10 and one pending publication
whose release time has already passed. -/
def iterEx : IterInput := ⟨[some 10], [(-1, 42)], 0, 0⟩

/-- Iteration input with one task due at 5 and a pending publication due
at 2, observed at clock 3 and post-wait clock 6. -/
def iterW : IterInput := ⟨[some 5], [(2, 7)], 3, 6⟩

end Examples

/-- C1: the claim lists Light.scan among the operations preserving the
zero-transition invariant, but scan seeds previous_active_level from the
fresh reading (current level, or max level when that is 0): on a rescan of
a light whose cached current_level is 100, a bus reading of 0 leaves
previous_active_level = 254 (the max level), not 100. -/
theorem zero_transition_scan_counterexample :
    (Light.rescan exLight).current_level = 100 ∧
    (Light.scan (Light.rescan exLight) none false busRescanZero).light.current_level = 0 ∧
    (Light.scan (Light.rescan exLight) none false busRescanZero).light.previous_active_level = 254 ∧
    (Light.scan (Light.rescan exLight) none false busRescanZero).light.previous_active_level ≠ 100 := by
  decide

/-- C1 (amended): whenever current_level changes from nonzero to 0 through
Light.command (for a light whose max_level is nonzero), Light.background,
Light.notify_scene or Light.notify_group_action, previous_active_level
afterwards equals the prior current_level; Light.scan instead seeds
previous_active_level to the max level read from the bus when the fresh
current level is 0. -/
theorem zero_transition_invariant :
    (∀ (l : Light) (sd : StatePayload) (now : Int), 0 < l.max_level →
      (Light.command l sd now).1.current_level = 0 → l.current_level ≠ 0 →
      (Light.command l sd now).1.previous_active_level = l.current_level) ∧
    (∀ (l : Light) (a : QueryResult) (lr : Bool) (now : Int),
      (Light.backgroundPoll l a lr now).1.current_level = 0 →
      l.current_level ≠ 0 →
      (Light.backgroundPoll l a lr now).1.previous_active_level = l.current_level) ∧
    (∀ (l : Light) (s : Nat) (now : Int),
      (Light.notify_scene l s now).current_level = 0 → l.current_level ≠ 0 →
      (Light.notify_scene l s now).previous_active_level = l.current_level) ∧
    (∀ (l : Light) (n : Nat) (now : Int),
      (Light.notify_group_action l n now).current_level = 0 →
      l.current_level ≠ 0 →
      (Light.notify_group_action l n now).previous_active_level = l.current_level) ∧
    (∀ (l : Light) (cfg : Option Bool) (gs : Bool) (bus : ScanBus),
      (Light.scan l cfg gs bus).light.current_level = 0 →
      l.current_level ≠ 0 →
      (Light.scan l cfg gs bus).light.previous_active_level = bus.max_level) := by
  refine ⟨?_, ?_, ?_, ?_, ?_⟩
  · intro l sd now hmax h0 hne
    simp only [Light.command] at h0 ⊢
    split_ifs at h0 ⊢ <;> simp_all
  · intro l a lr now h0 hne
    cases a <;> simp only [Light.backgroundPoll] at h0 ⊢ <;>
      split_ifs at h0 ⊢ <;> simp_all
  · intro l s now h0 hne
    simp only [Light.notify_scene] at h0 ⊢
    cases hl : l.scenes.lookup s with
    | none => simp_all
    | some lv =>
        by_cases hc : lv = 0 ∧ l.current_level ≠ 0
        · simp_all
        · simp_all
  · intro l n now h0 hne
    simp only [Light.notify_group_action] at h0 ⊢
    split_ifs at h0 ⊢ <;> simp_all
  · intro l cfg gs bus h0 hne
    by_cases hp : bus.present = false
    · simp [Light.scan, hp] at h0
      exact absurd h0 hne
    · cases hdt : bus.deviceTypes with
      | none =>
          simp [Light.scan, hp, hdt] at h0
          exact absurd h0 hne
      | some dts =>
          by_cases hem : 1 ∈ dts ∧ bus.switched_maintained = false
          · simp [Light.scan, hp, hdt, hem] at h0
            exact absurd h0 hne
          · by_cases hsc : (scanScenesFrom 0 bus.scene_levels).2.2 = false <;>
              cases hal : bus.actual_level <;>
                simp_all [Light.scan, hp, hdt, hem] <;>
                  split_ifs <;> simp_all

/-- Witness for the amended C1 at a concrete input: a group action to
level 0 on a light at level 100 snapshots 100. -/
theorem zero_transition_invariant_witness :
    (Light.notify_group_action exLight 0 5).current_level = 0 ∧
    exLight.current_level ≠ 0 ∧
    (Light.notify_group_action exLight 0 5).previous_active_level =
      exLight.current_level := by
  refine ⟨by decide, by decide, ?_⟩
  exact zero_transition_invariant.2.2.2.1 exLight 0 5 (by decide) (by decide)

/-- Payload ON with brightness 255 and no transition. -/
def sdOn255 : StatePayload := ⟨some "ON", some 255, none⟩

/-- C2: when the payload carries transition 0 the code's `if transition:`
test is falsy, so the claim "when a transition duration is present the
DAPC primitive is always sent" fails: {state: OFF, transition: 0} sends
the Off primitive, not DAPC. -/
theorem command_transition_present_counterexample :
    sdOffT0.transition = some 0 ∧
    (Light.command exLight sdOffT0 0).2 = Primitive.Off := by decide

/-- C2 (amended): the target level is 0 for OFF, else the explicit
brightness, else previous_active_level; when a nonzero (truthy) transition
duration is present DAPC is always sent; otherwise Off for target exactly
0, RecallMinLevel for target at or below min_level, RecallMaxLevel for
target at or above max_level, DAPC otherwise; in each case current_level
is set to the level the chosen primitive produces. -/
theorem command_primitive_selection (l : Light) (sd : StatePayload)
    (now : Int) :
    (transitionTruthy sd.transition = true →
      (Light.command l sd now).2 = Primitive.DAPC (specTarget l sd) ∧
      (Light.command l sd now).1.current_level = specTarget l sd) ∧
    (transitionTruthy sd.transition = false →
      (specTarget l sd = 0 →
        (Light.command l sd now).2 = Primitive.Off ∧
        (Light.command l sd now).1.current_level = 0) ∧
      (specTarget l sd ≠ 0 → specTarget l sd ≤ l.min_level →
        (Light.command l sd now).2 = Primitive.RecallMin ∧
        (Light.command l sd now).1.current_level = l.min_level) ∧
      (specTarget l sd ≠ 0 → ¬ specTarget l sd ≤ l.min_level →
          l.max_level ≤ specTarget l sd →
        (Light.command l sd now).2 = Primitive.RecallMax ∧
        (Light.command l sd now).1.current_level = l.max_level) ∧
      (specTarget l sd ≠ 0 → ¬ specTarget l sd ≤ l.min_level →
          ¬ l.max_level ≤ specTarget l sd →
        (Light.command l sd now).2 = Primitive.DAPC (specTarget l sd) ∧
        (Light.command l sd now).1.current_level = specTarget l sd)) := by
  simp only [Light.command, specTarget]
  split_ifs <;> simp_all

/-- Witness for the amended C2: ON at brightness 255 on a light with max
level 254 recalls the maximum level. -/
theorem command_primitive_selection_witness :
    (Light.command exLight sdOn255 0).2 = Primitive.RecallMax ∧
    (Light.command exLight sdOn255 0).1.current_level = exLight.max_level :=
  ((command_primitive_selection exLight sdOn255 0).2 (by decide)).2.2.1
    (by decide) (by decide) (by decide)

/-- C3: status 255 is decoded from an error backward frame
(BackwardFrameError), so for a decoder that distinguishes frame kinds — as
python-dali numeric responses do, decoding an error frame to the string
"framing error" rather than to its value — the result is not identical to
status 1 with return value 255. -/
theorem send_status255_counterexample :
    sendOne cmdDist reply255 reply255 = Except.ok (some (false, 255)) ∧
    sendOne cmdDist reply1v255 reply1v255 = Except.ok (some (true, 255)) ∧
    sendOne cmdDist reply255 reply255 ≠
      sendOne cmdDist reply1v255 reply1v255 := by
  decide

/-- C3 (amended): for a 16-bit command carrying a response decoder, the
authoritative reply's status is interpreted as: 0 → the decoded no-answer
response (not an error); 1 → the decoder applied to a plain backward frame
carrying return_value; 255 → the decoder applied to an error backward
frame with value 255 (an affirmative for yes/no decoders, not an error,
but not in general identical to status 1 with value 255); any other
status → a CommunicationError, with no response value. -/
theorem send_status_interpretation {R : Type} (cmd : WireCommand R)
    (dec : Option Frame → R) (r1 r2 : WireReply)
    (hr : cmd.response = some dec) (hf : cmd.frame_length = 16) :
    ((if cmd.sendtwice then r2 else r1).status = 0 →
      sendOne cmd r1 r2 = Except.ok (some (dec none))) ∧
    ((if cmd.sendtwice then r2 else r1).status = 1 →
      sendOne cmd r1 r2 =
        Except.ok (some (dec (some (Frame.backward
          (if cmd.sendtwice then r2 else r1).rval))))) ∧
    ((if cmd.sendtwice then r2 else r1).status = 255 →
      sendOne cmd r1 r2 =
        Except.ok (some (dec (some (Frame.backwardError 255))))) ∧
    ((if cmd.sendtwice then r2 else r1).status ≠ 0 →
      (if cmd.sendtwice then r2 else r1).status ≠ 1 →
      (if cmd.sendtwice then r2 else r1).status ≠ 255 →
      sendOne cmd r1 r2 = Except.error "CommunicationError") := by
  simp only [sendOne, hr, hf]
  split_ifs <;> simp_all

/-- Witness for the amended C3: a single-send command with the
distinguishing decoder and a status-1 reply with return value 255. -/
theorem send_status_interpretation_witness :
    sendOne cmdDist reply1v255 reply1v255 =
      Except.ok (some (distinguishDec (some (Frame.backward 255)))) :=
  (send_status_interpretation cmdDist distinguishDec reply1v255 reply1v255
    rfl rfl).2.1 (by decide)

/-- A 16-bit command with no response decoder, flagged sendtwice. -/
def cmdNoResp : WireCommand Nat := ⟨16, true, 0, none⟩

/-- A reply whose status 77 is outside {0, 1, 255}. -/
def replyBad : WireReply := ⟨2, 77, 3, 0⟩

/-- C10: for a 16-bit command with no response decoder the exchange
returns no response value regardless of the status byte, and in
particular a status outside {0, 1, 255} raises no communication error. -/
theorem send_no_decoder {R : Type} (cmd : WireCommand R) (r1 r2 : WireReply)
    (hr : cmd.response = none) (hf : cmd.frame_length = 16) :
    sendOne cmd r1 r2 = Except.ok none := by
  simp [sendOne, hr, hf]

/-- Witness for C10: a decoder-less command with an unknown status 77
still returns ok with no value. -/
theorem send_no_decoder_witness :
    sendOne cmdNoResp replyBad replyBad = Except.ok none :=
  send_no_decoder cmdNoResp replyBad replyBad rfl rfl

/-- C4: when the earliest pending publication's release time has already
passed, the code publishes it and leaves the timeout unshrunk, so the
claimed timeout formula (always shrink to the release time when sooner)
disagrees: with one task due in 10 and a publication released at -1, the
code waits 10 (and runs the idle tasks) while the claimed formula
gives -1. -/
theorem run_timeout_counterexample :
    (runIteration iterEx).timeout = 10 ∧
    claimTimeout iterEx = -1 ∧
    (runIteration iterEx).timeout ≠ claimTimeout iterEx ∧
    (runIteration iterEx).idleRan = true ∧
    claimTimeout iterEx ≤ 0 ∧
    (runIteration iterEx).published = some 42 := by
  decide

/-- C4 (amended): the wait timeout equals the time until the minimum
non-null deadline clamped to at least 0 (60 when no task has a deadline);
when the earliest pending publication's release is still in the future the
timeout is further shrunk to the time until that release if sooner, but a
release that has already passed is published this iteration with the
timeout left unshrunk; all idle tasks run exactly when the timeout is
strictly positive; and at most one background entry point is invoked,
namely that of an earliest-deadline task, only when its deadline has
passed at the post-wait clock. -/
theorem run_iteration_spec (inp : IterInput) :
    ((runIteration inp).idleRan = true ↔ 0 < (runIteration inp).timeout) ∧
    (∀ p, firstMin (currentTasks inp.deadlines) = some p →
      baseTimeout inp.deadlines inp.now = max (p.1 - inp.now) 0 ∧
      (∃ j : Nat, inp.deadlines[j]? = some (some p.1)) ∧
      (∀ (j : Nat) (e : Int), inp.deadlines[j]? = some (some e) → p.1 ≤ e)) ∧
    (currentTasks inp.deadlines = [] →
      baseTimeout inp.deadlines inp.now = 60 ∧
      (runIteration inp).ranBackground = none) ∧
    (inp.pending = [] →
      (runIteration inp).timeout = baseTimeout inp.deadlines inp.now ∧
      (runIteration inp).published = none) ∧
    (∀ t m rest, inp.pending = (t, m) :: rest → t ≤ inp.now →
      (runIteration inp).timeout = baseTimeout inp.deadlines inp.now ∧
      (runIteration inp).published = some m) ∧
    (∀ t m rest, inp.pending = (t, m) :: rest → inp.now < t →
      (runIteration inp).timeout =
        min (t - inp.now) (baseTimeout inp.deadlines inp.now) ∧
      (runIteration inp).published = none) ∧
    (∀ i, (runIteration inp).ranBackground = some i →
      ∃ d : Int, inp.deadlines[i]? = some (some d) ∧ d ≤ inp.now2 ∧
        ∀ (j : Nat) (e : Int), inp.deadlines[j]? = some (some e) → d ≤ e) ∧
    (∀ p, firstMin (currentTasks inp.deadlines) = some p → inp.now2 < p.1 →
      (runIteration inp).ranBackground = none) := by
  refine ⟨?_, ?_, ?_, ?_, ?_, ?_, ?_, ?_⟩
  · show decide (0 < (runIteration inp).timeout) = true ↔
      0 < (runIteration inp).timeout
    exact ⟨fun h => of_decide_eq_true h, fun h => decide_eq_true h⟩
  · intro p hp
    obtain ⟨hmem, hall⟩ := firstMin_spec hp
    refine ⟨by simp [baseTimeout, hp], ?_, ?_⟩
    · obtain ⟨j, hj, hget⟩ :=
        (currentTasksFrom_mem inp.deadlines 0 p.1 p.2).mp (by simpa using hmem)
      exact ⟨j, hget⟩
    · intro j e hget
      have : (e, j) ∈ currentTasks inp.deadlines :=
        (currentTasksFrom_mem inp.deadlines 0 e j).mpr ⟨j, by omega, hget⟩
      exact hall (e, j) this
  · intro h
    have hfm : firstMin (currentTasks inp.deadlines) = none := by
      rw [h]; rfl
    exact ⟨by simp [baseTimeout, hfm], by simp [runIteration, hfm]⟩
  · intro h
    exact ⟨by simp [runIteration, h], by simp [runIteration, h]⟩
  · intro t m rest h ht
    have hge : inp.now ≥ t := ht
    exact ⟨by simp [runIteration, h, hge], by simp [runIteration, h, hge]⟩
  · intro t m rest h ht
    have hge : ¬ inp.now ≥ t := not_le.mpr ht
    exact ⟨by simp [runIteration, h, hge], by simp [runIteration, h, hge]⟩
  · intro i hi
    rcases hf : firstMin (currentTasks inp.deadlines) with _ | p
    · rw [show (runIteration inp).ranBackground =
          (match firstMin (currentTasks inp.deadlines) with
            | some p => if inp.now2 ≥ p.1 then some p.2 else none
            | none => none) from rfl, hf] at hi
      exact Option.noConfusion hi
    · rw [show (runIteration inp).ranBackground =
          (match firstMin (currentTasks inp.deadlines) with
            | some p => if inp.now2 ≥ p.1 then some p.2 else none
            | none => none) from rfl, hf] at hi
      have hi2 : (if inp.now2 ≥ p.1 then some p.2 else none) = some i := hi
      by_cases hd : inp.now2 ≥ p.1
      · rw [if_pos hd] at hi2
        have hip : i = p.2 := (Option.some.inj hi2).symm
        obtain ⟨hmem, hall⟩ := firstMin_spec hf
        obtain ⟨j, hj, hget⟩ :=
          (currentTasksFrom_mem inp.deadlines 0 p.1 p.2).mp
            (by simpa using hmem)
        refine ⟨p.1, ?_, hd, ?_⟩
        · rw [hip]
          have : p.2 = j := by omega
          rw [this]
          exact hget
        · intro j' e hget'
          have : (e, j') ∈ currentTasks inp.deadlines :=
            (currentTasksFrom_mem inp.deadlines 0 e j').mpr
              ⟨j', by omega, hget'⟩
          exact hall (e, j') this
      · rw [if_neg hd] at hi2
        exact Option.noConfusion hi2
  · intro p hp hlt
    have hd : ¬ inp.now2 ≥ p.1 := not_le.mpr hlt
    simp [runIteration, hp, hd]

/-- Witness for the amended C4: at clock 3, with one task due at 5 and a
publication released at 2, the message is published and the timeout is
the unshrunk base. -/
theorem run_iteration_spec_witness :
    (runIteration iterW).timeout = baseTimeout iterW.deadlines iterW.now ∧
    (runIteration iterW).published = some 7 :=
  (run_iteration_spec iterW).2.2.2.2.1 2 7 [] rfl (by decide)

/-- C5: a garbled scene-level response aborts the scan as claimed, but the
abort leaves scanned = true with is_light still false, so deadline()
returns none: the scan is NOT retried on the next scheduling cycle without
an explicit rescan request, contrary to the claim's last part. -/
theorem scan_scene_abort_counterexample :
    (Light.scan exUnscanned none false busGarbledScene).light.is_light
      = false ∧
    (Light.scan exUnscanned none false busGarbledScene).entitiesCreated
      = false ∧
    (Light.scan exUnscanned none false busGarbledScene).light.scanned
      = true ∧
    Light.deadline
      (Light.scan exUnscanned none false busGarbledScene).light 30 = none := by
  decide

/-- C5 (amended): for a device not yet exposed as a light whose scan
reaches the scene queries, a masked scene level is skipped without error
(absent from the scene table, scan completes); any other garbled
scene-level response aborts the whole scan — no entities are created,
is_light stays false — and the aborted device is left with scanned = true,
so its deadline() is none and the scan is only retried after an explicit
rescan request clears scanned. -/
theorem scan_scene_error_handling :
    (∀ (l : Light) (cfg : Option Bool) (gs : Bool) (bus : ScanBus)
        (interval : Int) (dts : List Nat),
      l.is_light = false →
      bus.present = true →
      bus.deviceTypes = some dts →
      ¬(1 ∈ dts ∧ bus.switched_maintained = false) →
      QueryResult.garbled ∈ bus.scene_levels →
      (Light.scan l cfg gs bus).light.scanned = true ∧
      (Light.scan l cfg gs bus).light.is_light = false ∧
      (Light.scan l cfg gs bus).entitiesCreated = false ∧
      Light.deadline (Light.scan l cfg gs bus).light interval = none ∧
      Light.deadline (Light.rescan (Light.scan l cfg gs bus).light) interval
        = some 0) ∧
    (∀ (l : Light) (cfg : Option Bool) (gs : Bool) (bus : ScanBus)
        (dts : List Nat),
      bus.present = true →
      bus.deviceTypes = some dts →
      ¬(1 ∈ dts ∧ bus.switched_maintained = false) →
      QueryResult.garbled ∉ bus.scene_levels →
      (Light.scan l cfg gs bus).entitiesCreated = true ∧
      (Light.scan l cfg gs bus).light.is_light = true ∧
      ∀ k : Nat, bus.scene_levels[k]? = some QueryResult.mask →
        (Light.scan l cfg gs bus).light.scenes.lookup k = none) := by
  constructor
  · intro l cfg gs bus interval dts hil hp hdt hem hgar
    have hsc := scanScenesFrom_garbled bus.scene_levels 0 hgar
    refine ⟨?_, ?_, ?_, ?_, ?_⟩ <;>
      simp [Light.scan, Light.deadline, Light.rescan, hp, hdt, hem, hsc, hil]
  · intro l cfg gs bus dts hp hdt hem hgar
    have hsc := scanScenesFrom_ok bus.scene_levels 0 hgar
    refine ⟨?_, ?_, ?_⟩
    · simp [Light.scan, hp, hdt, hem, hsc]
    · simp [Light.scan, hp, hdt, hem, hsc]
    · intro k hk
      have hscene : (Light.scan l cfg gs bus).light.scenes =
          (scanScenesFrom 0 bus.scene_levels).1 := by
        simp [Light.scan, hp, hdt, hem, hsc]
      rw [hscene]
      cases hlk : (scanScenesFrom 0 bus.scene_levels).1.lookup k with
      | none => rfl
      | some lv =>
          obtain ⟨k', hk', hget⟩ :=
            scanScenesFrom_lookup bus.scene_levels 0 k lv hlk
          have hkk : k = k' := by omega
          rw [hkk, hget] at hk
          exact absurd (Option.some.inj hk) (by simp)

/-- Witness for the amended C5: a bus answering all sixteen scene queries
with MASK completes the scan, creates entities and records no scenes. -/
theorem scan_scene_error_handling_witness :
    (Light.scan exUnscanned none false busRescanZero).entitiesCreated
      = true ∧
    (Light.scan exUnscanned none false busRescanZero).light.is_light
      = true ∧
    (Light.scan exUnscanned none false busRescanZero).light.scenes.lookup 3
      = none := by
  have h := scan_scene_error_handling.2 exUnscanned none false busRescanZero
    [] (by decide) rfl (by decide) (by decide)
  exact ⟨h.1, h.2.1, h.2.2 3 (by decide)⟩

/-- Light.command never changes min_level or max_level. -/
lemma command_min_max (l : Light) (sd : StatePayload) (now : Int) :
    (Light.command l sd now).1.min_level = l.min_level ∧
    (Light.command l sd now).1.max_level = l.max_level := by
  simp only [Light.command]
  split_ifs <;> simp

/-- The level Light.command ends at, as a function of the target, the
transition flag and the level bounds. -/
lemma command_cl (l : Light) (sd : StatePayload) (now : Int) :
    (Light.command l sd now).1.current_level =
      (if transitionTruthy sd.transition then specTarget l sd
       else if specTarget l sd = 0 then 0
       else if specTarget l sd ≤ l.min_level then l.min_level
       else if l.max_level ≤ specTarget l sd then l.max_level
       else specTarget l sd) := by
  simp only [Light.command, specTarget]
  split_ifs <;> simp_all

/-- Light.command leaves previous_active_level alone when the target is
nonzero. -/
lemma command_pal (l : Light) (sd : StatePayload) (now : Int)
    (h : specTarget l sd ≠ 0) :
    (Light.command l sd now).1.previous_active_level =
      l.previous_active_level := by
  simp only [Light.command, specTarget] at *
  split_ifs <;> simp_all

/-- C6: with previous_active_level 0 and current_level 100, the payload
{state: ON} (no brightness, no transition) first computes target 0 — the
light turns Off and 100 is snapshotted — and the second identical call
restores level 100: the two invocations end at different current_levels. -/
theorem command_idempotence_counterexample :
    exPalZero.previous_active_level = 0 ∧
    (Light.command exPalZero sdOnNoB 0).1.current_level = 0 ∧
    (Light.command (Light.command exPalZero sdOnNoB 0).1 sdOnNoB 1).1.current_level
      = 100 := by
  decide

/-- C6 (amended): issuing the same set-state payload twice leaves
current_level at the same final value after each invocation whenever the
payload turns the light off, carries an explicit brightness, or
previous_active_level is nonzero — the only escape is an ON payload with
no brightness on a light whose previous_active_level is 0. -/
theorem command_idempotent (l : Light) (sd : StatePayload) (n1 n2 : Int)
    (h : sd.state.getD "OFF" = "OFF" ∨ sd.brightness ≠ none ∨
      l.previous_active_level ≠ 0) :
    (Light.command (Light.command l sd n1).1 sd n2).1.current_level =
      (Light.command l sd n1).1.current_level := by
  have hmm := command_min_max l sd n1
  have htgt : specTarget (Light.command l sd n1).1 sd = specTarget l sd := by
    rcases h with h | h | h
    · simp [specTarget, h]
    · cases hb : sd.brightness with
      | none => exact absurd hb h
      | some b => simp [specTarget, hb]
    · by_cases hoff : sd.state.getD "OFF" = "OFF"
      · simp [specTarget, hoff]
      · cases hb : sd.brightness with
        | some b => simp [specTarget, hoff, hb]
        | none =>
            have hT : specTarget l sd = l.previous_active_level := by
              simp [specTarget, hoff, hb]
            have hpal := command_pal l sd n1 (by rw [hT]; exact h)
            simp [specTarget, hoff, hb, hpal]
  rw [command_cl (Light.command l sd n1).1 sd n2, command_cl l sd n1,
    htgt, hmm.1, hmm.2]

/-- Witness for the amended C6: repeating {state: ON} on a light with
previous_active_level 50 ends at the same level both times. -/
theorem command_idempotent_witness :
    (Light.command (Light.command exLight sdOnNoB 0).1 sdOnNoB 1).1.current_level
      = (Light.command exLight sdOnNoB 0).1.current_level :=
  command_idempotent exLight sdOnNoB 0 1 (Or.inr (Or.inr (by decide)))

/-- C7: Group.__init__ seeds max_level with 1, so a single member whose
reported max_level is the raw bus byte 0 yields group.max_level = 1,
which is not the maximum (0) of the members' max_levels. -/
theorem group_aggregates_counterexample :
    (Group.init.add_member tLightMax0).members = [tLightMax0] ∧
    tLightMax0.max_level = 0 ∧
    (Group.init.add_member tLightMax0).max_level = 1 := by
  decide

/-- C7 (amended): after any nonempty sequence of add_member calls whose
members all have min_level at most 254 and max_level at least 1 (the seeds
of Group.__init__, satisfied by conformant DALI gear), the group min and
max levels are attained by members and bound all members, and
supports_brightness holds iff some member supports brightness. -/
theorem group_aggregates (ls : List Light) (hne : ls ≠ [])
    (hmin : ∀ l ∈ ls, l.min_level ≤ 254)
    (hmax : ∀ l ∈ ls, 1 ≤ l.max_level) :
    ((ls.foldl Group.add_member Group.init).members = ls.reverse) ∧
    (∃ m ∈ ls,
      (ls.foldl Group.add_member Group.init).min_level = m.min_level) ∧
    (∀ m ∈ ls,
      (ls.foldl Group.add_member Group.init).min_level ≤ m.min_level) ∧
    (∃ m ∈ ls,
      (ls.foldl Group.add_member Group.init).max_level = m.max_level) ∧
    (∀ m ∈ ls,
      m.max_level ≤ (ls.foldl Group.add_member Group.init).max_level) ∧
    ((ls.foldl Group.add_member Group.init).supports_brightness = true ↔
      ∃ m ∈ ls, m.supports_brightness = true) := by
  have hmem := group_fold_members ls Group.init
  have hsbf := group_fold_sb ls Group.init
  have hmin' : (ls.foldl Group.add_member Group.init).min_level =
      (ls.map Light.min_level).foldl min 254 := by
    rw [group_fold_min ls Group.init, List.foldl_map]
    rfl
  have hmax' : (ls.foldl Group.add_member Group.init).max_level =
      (ls.map Light.max_level).foldl max 1 := by
    rw [group_fold_max ls Group.init, List.foldl_map]
    rfl
  obtain ⟨hm1, hm2, hm3⟩ := foldl_min_spec (ls.map Light.min_level) 254
  obtain ⟨hx1, hx2, hx3⟩ := foldl_max_spec (ls.map Light.max_level) 1
  refine ⟨by simpa [Group.init] using hmem, ?_, ?_, ?_, ?_, ?_⟩
  · rcases hm3 with hr | hr
    · obtain ⟨m, hm⟩ := List.exists_mem_of_ne_nil ls hne
      refine ⟨m, hm, ?_⟩
      rw [hmin']
      have h1 := hm2 _ (List.mem_map_of_mem Light.min_level hm)
      have h2 := hmin m hm
      omega
    · obtain ⟨m, hm, hmm⟩ := List.mem_map.mp hr
      exact ⟨m, hm, by rw [hmin']; exact hmm.symm⟩
  · intro m hm
    rw [hmin']
    exact hm2 _ (List.mem_map_of_mem Light.min_level hm)
  · rcases hx3 with hr | hr
    · obtain ⟨m, hm⟩ := List.exists_mem_of_ne_nil ls hne
      refine ⟨m, hm, ?_⟩
      rw [hmax']
      have h1 := hx2 _ (List.mem_map_of_mem Light.max_level hm)
      have h2 := hmax m hm
      omega
    · obtain ⟨m, hm, hmm⟩ := List.mem_map.mp hr
      exact ⟨m, hm, by rw [hmax']; exact hmm.symm⟩
  · intro m hm
    rw [hmax']
    exact hx2 _ (List.mem_map_of_mem Light.max_level hm)
  · rw [hsbf]
    simp [Group.init]

/-- Witness for the amended C7: the singleton group over exLight has its
aggregates equal to that member's values. -/
theorem group_aggregates_witness :
    (∃ m ∈ [exLight],
      ([exLight].foldl Group.add_member Group.init).min_level
        = m.min_level) ∧
    (([exLight].foldl Group.add_member Group.init).supports_brightness
        = true ↔ ∃ m ∈ [exLight], m.supports_brightness = true) := by
  have h := group_aggregates [exLight] (by decide) (by decide) (by decide)
  exact ⟨h.2.1, h.2.2.2.2.2⟩

/-- C8: a garbled (non-masked, non-numeric) actual-level response during
a background poll of a light skips the cycle: the light state — including
current_level, previous_active_level, lamp_failure and last_update — is
unchanged and no state publication occurs. -/
theorem background_garbled_skip (l : Light) (lr : Bool) (now : Int)
    (_hs : l.scanned = true) (hl : l.is_light = true) :
    (Light.backgroundPoll l QueryResult.garbled lr now).1 = l ∧
    (Light.backgroundPoll l QueryResult.garbled lr now).2 = false := by
  simp [Light.backgroundPoll, hl]

/-- Witness for C8 at a concrete scanned light. -/
theorem background_garbled_skip_witness :
    (Light.backgroundPoll exLight QueryResult.garbled true 99).1 = exLight ∧
    (Light.backgroundPoll exLight QueryResult.garbled true 99).2 = false :=
  background_garbled_skip exLight true 99 rfl rfl

/-- C9: scan stores the bus readings unvalidated, so an actual level of 10
against a reported min level of 50 completes the scan with
current_level = 10 outside [min_level, max_level] and nonzero. -/
theorem scan_level_range_counterexample :
    (Light.scan exUnscanned none false busLowActual).light.is_light
      = true ∧
    (Light.scan exUnscanned none false busLowActual).light.min_level
      = 50 ∧
    (Light.scan exUnscanned none false busLowActual).light.current_level
      = 10 ∧
    (Light.scan exUnscanned none false busLowActual).light.current_level
      ≠ 0 ∧
    ¬ (Light.scan exUnscanned none false busLowActual).light.min_level ≤
        (Light.scan exUnscanned none false busLowActual).light.current_level := by
  decide

/-- C9 (amended): after a successful scan,
min_level ≤ current_level ≤ max_level or current_level = 0 holds provided
the bus reports MASK, 0 or an actual level within the reported
[min_level, max_level] — the property is inherited from the device, not
enforced by the code. -/
theorem scan_level_range (l : Light) (cfg : Option Bool) (gs : Bool)
    (bus : ScanBus) (dts : List Nat)
    (hp : bus.present = true) (hdt : bus.deviceTypes = some dts)
    (hem : ¬(1 ∈ dts ∧ bus.switched_maintained = false))
    (hgar : QueryResult.garbled ∉ bus.scene_levels)
    (hact : bus.actual_level = none ∨ bus.actual_level = some 0 ∨
      ∃ n, bus.actual_level = some n ∧
        bus.min_level ≤ n ∧ n ≤ bus.max_level) :
    (Light.scan l cfg gs bus).light.is_light = true ∧
    ((Light.scan l cfg gs bus).light.current_level = 0 ∨
      ((Light.scan l cfg gs bus).light.min_level ≤
          (Light.scan l cfg gs bus).light.current_level ∧
        (Light.scan l cfg gs bus).light.current_level ≤
          (Light.scan l cfg gs bus).light.max_level)) := by
  have hsc := scanScenesFrom_ok bus.scene_levels 0 hgar
  rcases hact with h | h | ⟨n, h, hn1, hn2⟩
  · constructor <;> simp [Light.scan, hp, hdt, hem, hsc, h]
  · constructor <;> simp [Light.scan, hp, hdt, hem, hsc, h]
  · refine ⟨by simp [Light.scan, hp, hdt, hem, hsc, h], Or.inr ?_⟩
    constructor <;> simp [Light.scan, hp, hdt, hem, hsc, h, hn1, hn2]

/-- Witness for the amended C9: a scan reading level 0 satisfies the
range property through the current_level = 0 escape. -/
theorem scan_level_range_witness :
    (Light.scan exUnscanned none false busRescanZero).light.is_light
      = true ∧
    ((Light.scan exUnscanned none false busRescanZero).light.current_level
        = 0 ∨
      ((Light.scan exUnscanned none false busRescanZero).light.min_level ≤
          (Light.scan exUnscanned none false busRescanZero).light.current_level ∧
        (Light.scan exUnscanned none false busRescanZero).light.current_level ≤
          (Light.scan exUnscanned none false busRescanZero).light.max_level)) :=
  scan_level_range exUnscanned none false busRescanZero [] (by decide) rfl
    (by decide) (by decide) (Or.inr (Or.inl rfl))

end Dali2Hass
